import Mathlib

/-!
Shallow embedding of the Waveshare UPS HAT E register-protocol layer.

The embedding follows the Rust sources `src/lib.rs`, `src/registers.rs` and
`src/error.rs`.  Byte blocks returned by the I2C transport are modelled as
`List Nat` (each element a byte value below 256); the facade functions take the
transport's returned block as an explicit argument.  Machine integers are
modelled as `Nat`/`Int`: `u16` values fit in `Nat` (the decode layer never
overflows 16 bits except where noted), the one `i32`/`i16` computation is
modelled on `Int` with the narrowing cast made explicit, and wrapping `u16`
addition is reduced modulo 2^16.
-/

set_option maxRecDepth 4096

/-! ### Error taxonomy (`src/error.rs`) -/

/-- Decode-layer errors, mirroring `enum Error` in `src/error.rs`.
`I2CError` wraps the underlying transport failure, which carries no
information relevant to the decode layer and is therefore a bare constructor
here; `InvalidDataLen` carries `(register, expected, actual)`;
`InvalidChargerActivity` carries the raw 3-bit activity value. -/
inductive Error where
  | I2CError : Error
  | InvalidDataLen : Nat → Nat → Nat → Error
  | InvalidChargerActivity : Nat → Error
deriving DecidableEq

instance {ε α : Type} [DecidableEq ε] [DecidableEq α] : DecidableEq (Except ε α) := fun x y =>
  match x, y with
  | .error e, .error e' =>
    if h : e = e' then isTrue (by rw [h]) else isFalse (by intro hc; cases hc; exact h rfl)
  | .ok a, .ok a' =>
    if h : a = a' then isTrue (by rw [h]) else isFalse (by intro hc; cases hc; exact h rfl)
  | .error _, .ok _ => isFalse (by intro hc; cases hc)
  | .ok _, .error _ => isFalse (by intro hc; cases hc)

/-! ### Register map (`src/registers.rs`) -/

/-- A logical grouping of registers: register id plus the number of bytes to
read, mirroring `struct RegisterBlock`. -/
structure RegisterBlock where
  id : Nat
  length : Nat

def CHARGING_REG : RegisterBlock := { id := 0x02, length := 1 }

def COMMUNICATION_REG : RegisterBlock := { id := 0x03, length := 1 }

def USBC_VBUS_REG : RegisterBlock := { id := 0x10, length := 6 }

def BATTERY_REG : RegisterBlock := { id := 0x20, length := 12 }

def CELL_VOLTAGE_REG : RegisterBlock := { id := 0x30, length := 8 }

def POWEROFF_REG : RegisterBlock := { id := 0x01, length := 1 }

/-- Charger activity codes, mirroring `enum ChargerActivity`. -/
inductive ChargerActivity where
  | Standby
  | Trickle
  | ConstantCurrent
  | ConstantVoltage
  | Pending
  | Full
  | Timeout
deriving DecidableEq

/-- Mirrors `impl TryFrom<u8> for ChargerActivity`: the seven defined 3-bit
codes decode, anything else fails with `InvalidChargerActivity(value)`. -/
def ChargerActivity.tryFrom (value : Nat) : Except Error ChargerActivity :=
  match value with
  | 0b000 => .ok .Standby
  | 0b001 => .ok .Trickle
  | 0b010 => .ok .ConstantCurrent
  | 0b011 => .ok .ConstantVoltage
  | 0b100 => .ok .Pending
  | 0b101 => .ok .Full
  | 0b110 => .ok .Timeout
  | _ => .error (.InvalidChargerActivity value)

/-- Mirrors `enum CommState`. -/
inductive CommState where
  | Error
  | Normal
deriving DecidableEq

/-- Mirrors `impl From<bool> for CommState`. -/
def CommState.fromBool (value : Bool) : CommState :=
  if value then .Normal else .Error

/-- Mirrors `enum UsbCInputState`. -/
inductive UsbCInputState where
  | NoPower
  | Powered
deriving DecidableEq

/-- Mirrors `impl From<bool> for UsbCInputState`. -/
def UsbCInputState.fromBool (value : Bool) : UsbCInputState :=
  if value then .Powered else .NoPower

/-- Mirrors `enum UsbCPowerDelivery`. -/
inductive UsbCPowerDelivery where
  | StandardCharging
  | FastCharging
deriving DecidableEq

/-- Mirrors `impl From<bool> for UsbCPowerDelivery`. -/
def UsbCPowerDelivery.fromBool (value : Bool) : UsbCPowerDelivery :=
  if value then .FastCharging else .StandardCharging

/-- Mirrors `enum ChargingState`. -/
inductive ChargingState where
  | NotCharging
  | Charging
deriving DecidableEq

/-- Mirrors `impl From<bool> for ChargingState`. -/
def ChargingState.fromBool (value : Bool) : ChargingState :=
  if value then .Charging else .NotCharging

/-! ### Record types and constants (`src/lib.rs`) -/

/-- Default threshold for low cell voltage, in millivolts (`src/lib.rs`). -/
def DEFAULT_CELL_LOW_VOLTAGE_THRESHOLD : Nat := 3400

/-- Value written to (and sentinel value read from) the power-off register. -/
def POWEROFF_VALUE : Nat := 0x55

/-- Mirrors `struct PowerState`. -/
structure PowerState where
  charging_state : ChargingState
  charger_activity : ChargerActivity
  usbc_input_state : UsbCInputState
  usbc_power_delivery : UsbCPowerDelivery
deriving DecidableEq

/-- Mirrors `struct CommunicationState`. -/
structure CommunicationState where
  bq4050 : CommState
  ip2368 : CommState
deriving DecidableEq

/-- Mirrors `struct BatteryState`; `milliamps` is the one signed field. -/
structure BatteryState where
  millivolts : Nat
  milliamps : Int
  remaining_percent : Nat
  remaining_capacity_milliamphours : Nat
  remaining_runtime_minutes : Nat
  time_to_full_minutes : Nat
deriving DecidableEq

/-- Mirrors `struct CellVoltage`. -/
structure CellVoltage where
  cell_1_millivolts : Nat
  cell_2_millivolts : Nat
  cell_3_millivolts : Nat
  cell_4_millivolts : Nat
deriving DecidableEq

/-- Mirrors `struct UsbCVBus`. -/
structure UsbCVBus where
  millivolts : Nat
  milliamps : Nat
  milliwatts : Nat
deriving DecidableEq

/-! ### Decode primitives -/

/-- Little-endian 16-bit assembly `data[i] as u16 | (data[i+1] as u16) << 8`,
the pattern used by every two-byte field decode in `src/lib.rs`. -/
def le16 (lo hi : Nat) : Nat := lo ||| (hi <<< 8)

/-- Rust `as i16` narrowing cast from a wider signed integer: reduce modulo
2^16 into the interval [-32768, 32768).  (`%` on `Int` is `emod`, whose result
is non-negative here.) -/
def as_i16 (x : Int) : Int :=
  if 32768 ≤ x % 65536 then x % 65536 - 65536 else x % 65536

/-- Mirrors `UpsHatE::read_block` (`src/lib.rs` lines 237-245) with the
transport's returned byte block made an explicit argument: the block is
returned unchanged iff its length equals the requested `length`, otherwise
the call fails with `InvalidDataLen(register, expected, actual)`. -/
def read_block (register : Nat) (length : Nat) (data : List Nat) : Except Error (List Nat) :=
  if data.length ≠ length then
    .error (.InvalidDataLen register length data.length)
  else
    .ok data

/-! ### Field codecs and facade operations (`src/lib.rs`) -/

/-- Codec body of `UpsHatE::get_cell_voltage`: four consecutive little-endian
16-bit values at byte offsets 0, 2, 4, 6. -/
def decodeCellVoltage (data : List Nat) : CellVoltage :=
  { cell_1_millivolts := le16 (data.getD 0 0) (data.getD 1 0)
    cell_2_millivolts := le16 (data.getD 2 0) (data.getD 3 0)
    cell_3_millivolts := le16 (data.getD 4 0) (data.getD 5 0)
    cell_4_millivolts := le16 (data.getD 6 0) (data.getD 7 0) }

/-- Mirrors `UpsHatE::get_cell_voltage`, with the transport's returned bytes
as explicit argument. -/
def get_cell_voltage (data : List Nat) : Except Error CellVoltage :=
  (read_block CELL_VOLTAGE_REG.id CELL_VOLTAGE_REG.length data).map decodeCellVoltage

/-- Codec body of `UpsHatE::get_usbc_vbus`: three consecutive little-endian
16-bit values at byte offsets 0, 2, 4. -/
def decodeUsbCVBus (data : List Nat) : UsbCVBus :=
  { millivolts := le16 (data.getD 0 0) (data.getD 1 0)
    milliamps := le16 (data.getD 2 0) (data.getD 3 0)
    milliwatts := le16 (data.getD 4 0) (data.getD 5 0) }

/-- Mirrors `UpsHatE::get_usbc_vbus`. -/
def get_usbc_vbus (data : List Nat) : Except Error UsbCVBus :=
  (read_block USBC_VBUS_REG.id USBC_VBUS_REG.length data).map decodeUsbCVBus

/-- The `milliamps` block of `UpsHatE::get_battery_state` (`src/lib.rs` lines
144-151): build the 16-bit little-endian value at offset 2 as an `i32`
(modelled on `Int`, where the computation cannot overflow), subtract `0xffff`
when it exceeds `0x7fff`, then narrow with `as i16`. -/
def battery_milliamps (b2 b3 : Nat) : Int :=
  let current : Int := (le16 b2 b3 : Nat)
  as_i16 (if 0x7fff < current then current - 0xffff else current)

/-- Codec body of `UpsHatE::get_battery_state` (`src/lib.rs` lines 144-171). -/
def decodeBatteryState (data : List Nat) : BatteryState :=
  let milliamps : Int := battery_milliamps (data.getD 2 0) (data.getD 3 0)
  { millivolts := le16 (data.getD 0 0) (data.getD 1 0)
    milliamps := milliamps
    remaining_percent := le16 (data.getD 4 0) (data.getD 5 0)
    remaining_capacity_milliamphours := le16 (data.getD 6 0) (data.getD 7 0)
    remaining_runtime_minutes := if milliamps < 0 then le16 (data.getD 8 0) (data.getD 9 0) else 0
    time_to_full_minutes := if milliamps < 0 then 0 else le16 (data.getD 10 0) (data.getD 11 0) }

/-- Mirrors `UpsHatE::get_battery_state`. -/
def get_battery_state (data : List Nat) : Except Error BatteryState :=
  (read_block BATTERY_REG.id BATTERY_REG.length data).map decodeBatteryState

/-- Codec body of `UpsHatE::get_power_state` (`src/lib.rs` lines 178-190):
bits 0-2 select the charger activity (failing on the undefined code), bit 5
the USB-C input state, bit 6 the power-delivery mode, bit 7 the charging
state. -/
def decodePowerState (byte : Nat) : Except Error PowerState := do
  let charger_activity ← ChargerActivity.tryFrom (byte &&& 0b111)
  let usbc_input_state := UsbCInputState.fromBool (byte &&& (1 <<< 5) != 0)
  let usbc_power_delivery := UsbCPowerDelivery.fromBool (byte &&& (1 <<< 6) != 0)
  let charging_state := ChargingState.fromBool (byte &&& (1 <<< 7) != 0)
  .ok { charging_state := charging_state
        charger_activity := charger_activity
        usbc_input_state := usbc_input_state
        usbc_power_delivery := usbc_power_delivery }

/-- Mirrors `UpsHatE::get_power_state`. -/
def get_power_state (data : List Nat) : Except Error PowerState := do
  let data ← read_block CHARGING_REG.id CHARGING_REG.length data
  decodePowerState (data.getD 0 0)

/-- Codec body of `UpsHatE::get_communication_state` (`src/lib.rs` lines
195-200): bit 0 is the IP2368 link state, bit 1 the BQ4050 link state. -/
def decodeCommunicationState (byte : Nat) : CommunicationState :=
  { bq4050 := CommState.fromBool (byte &&& (1 <<< 1) != 0)
    ip2368 := CommState.fromBool (byte &&& (1 <<< 0) != 0) }

/-- Mirrors `UpsHatE::get_communication_state`. -/
def get_communication_state (data : List Nat) : Except Error CommunicationState := do
  let data ← read_block COMMUNICATION_REG.id COMMUNICATION_REG.length data
  .ok (decodeCommunicationState (data.getD 0 0))

/-- Mirrors `UpsHatE::is_battery_low` (`src/lib.rs` lines 208-219).  The four
cell voltages are summed with `u16` addition before the cast to `u32`, so the
sum wraps modulo 2^16 (release-mode Rust semantics), modelled by the
`% 65536`. -/
def is_battery_low (data : List Nat) : Except Error Bool := do
  let CUTOFF : Nat := 4 * DEFAULT_CELL_LOW_VOLTAGE_THRESHOLD
  let cell_voltages ← get_cell_voltage data
  let total_voltage : Nat :=
    (cell_voltages.cell_1_millivolts + cell_voltages.cell_2_millivolts +
      cell_voltages.cell_3_millivolts + cell_voltages.cell_4_millivolts) % 65536
  .ok (decide (total_voltage ≤ CUTOFF))

/-- The single smbus byte write `(register, value)` performed by
`UpsHatE::force_power_off` (`src/lib.rs` lines 224-228). -/
def force_power_off_write : Nat × Nat := (POWEROFF_REG.id, POWEROFF_VALUE)

/-- Mirrors `UpsHatE::is_power_off_pending`: reads one byte from the power-off
register and compares it with the sentinel. -/
def is_power_off_pending (data : List Nat) : Except Error Bool := do
  let data ← read_block POWEROFF_REG.id POWEROFF_REG.length data
  .ok (decide (data.getD 0 0 = POWEROFF_VALUE))

/-! ### Spec-side definitions (stated from the specification's words, for
comparison with the code-derived definitions above) -/

/-- Sign rule as the spec states it: the little-endian 16-bit unsigned value
at offset 2, widened to a signed integer, minus `0xFFFF` whenever it exceeds
`0x7FFF`. -/
def specSignRule (raw : Nat) : Int :=
  if 0x7fff < (raw : Int) then (raw : Int) - 0xffff else (raw : Int)

/-- Charger-activity table as the spec states it, defined for the seven
defined codes 0-6 (code 7 never reaches this table). -/
def specChargerActivityTable (bits : Nat) : ChargerActivity :=
  if bits = 0 then .Standby
  else if bits = 1 then .Trickle
  else if bits = 2 then .ConstantCurrent
  else if bits = 3 then .ConstantVoltage
  else if bits = 4 then .Pending
  else if bits = 5 then .Full
  else .Timeout

/-- Spec-side encoder for the cell-voltage block: four 16-bit values laid out
little-endian at byte offsets 0, 2, 4, 6. -/
def encodeCellBlock (v1 v2 v3 v4 : Nat) : List Nat :=
  [v1 % 256, v1 / 256, v2 % 256, v2 / 256, v3 % 256, v3 / 256, v4 % 256, v4 / 256]

/-! ### Helper lemmas -/

/-- On byte inputs the little-endian assembly is plain positional arithmetic. -/
theorem le16_eq_add (lo hi : Nat) (h : lo < 256) : le16 lo hi = lo + 256 * hi := by
  have h8 : lo < 2 ^ 8 := by omega
  unfold le16
  rw [Nat.shiftLeft_eq, Nat.lor_comm, Nat.mul_comm hi (2 ^ 8), ← Nat.mul_add_lt_is_or h8 hi]
  omega

theorem le16_lt (lo hi : Nat) (h1 : lo < 256) (h2 : hi < 256) : le16 lo hi < 65536 := by
  rw [le16_eq_add lo hi h1]
  omega

/-- Values already in `i16` range pass through the narrowing cast unchanged. -/
theorem as_i16_eq_self (x : Int) (h1 : -32768 ≤ x) (h2 : x < 32768) : as_i16 x = x := by
  unfold as_i16
  split <;> omega

theorem getD_lt_256 {data : List Nat} (hb : ∀ b ∈ data, b < 256) {i : Nat}
    (hi : i < data.length) : data.getD i 0 < 256 := by
  rw [List.getD_eq_getElem data 0 hi]
  exact hb _ (List.getElem_mem hi)

theorem read_block_ok (register length : Nat) (data : List Nat)
    (h : data.length = length) : read_block register length data = .ok data := by
  unfold read_block
  simp [h]

theorem read_block_mismatch (register length : Nat) (data : List Nat)
    (h : data.length ≠ length) :
    read_block register length data = .error (.InvalidDataLen register length data.length) := by
  unfold read_block
  simp [h]

/-- The sign-treatment block agrees with the spec's sign rule on byte inputs. -/
theorem battery_milliamps_eq_spec (b2 b3 : Nat) (h2 : b2 < 256) (h3 : b3 < 256) :
    battery_milliamps b2 b3 = specSignRule (b2 + 256 * b3) := by
  unfold battery_milliamps specSignRule
  simp only [le16_eq_add b2 b3 h2]
  by_cases hc : (0x7fff : Int) < ((b2 + 256 * b3 : Nat) : Int)
  · rw [if_pos hc]
    apply as_i16_eq_self <;> push_cast <;> omega
  · rw [if_neg hc]
    apply as_i16_eq_self <;> push_cast <;> omega

theorem decodeBatteryState_milliamps (data : List Nat) :
    (decodeBatteryState data).milliamps = battery_milliamps (data.getD 2 0) (data.getD 3 0) := rfl

theorem decodeBatteryState_runtime (data : List Nat) :
    (decodeBatteryState data).remaining_runtime_minutes =
      if battery_milliamps (data.getD 2 0) (data.getD 3 0) < 0
      then le16 (data.getD 8 0) (data.getD 9 0) else 0 := rfl

theorem decodeBatteryState_time_to_full (data : List Nat) :
    (decodeBatteryState data).time_to_full_minutes =
      if battery_milliamps (data.getD 2 0) (data.getD 3 0) < 0
      then 0 else le16 (data.getD 10 0) (data.getD 11 0) := rfl

theorem get_battery_state_of_len (data : List Nat) (hlen : data.length = 12) :
    get_battery_state data = .ok (decodeBatteryState data) := by
  unfold get_battery_state
  rw [read_block_ok BATTERY_REG.id BATTERY_REG.length data (hlen.trans rfl)]
  rfl

/-- Congruence of masking through a common covering mask. -/
theorem and_mask_congr (b b' m sub : Nat) (h : b &&& m = b' &&& m)
    (hsub : m &&& sub = sub) : b &&& sub = b' &&& sub := by
  rw [← hsub, ← Nat.and_assoc, h, Nat.and_assoc]

/-! ### Claim theorems -/

/-- C1: for every 12-byte battery block, the decoded signed current equals the
little-endian 16-bit unsigned value at offset 2, widened, minus 0xFFFF
whenever it exceeds 0x7FFF; in particular the raw value 0x8000 decodes to
32768 - 0xFFFF = -32767, not -32768. -/
theorem battery_current_sign_rule (data : List Nat) (hlen : data.length = 12)
    (hb : ∀ b ∈ data, b < 256) :
    get_battery_state data = .ok (decodeBatteryState data) ∧
    (decodeBatteryState data).milliamps =
      specSignRule (data.getD 2 0 + 256 * data.getD 3 0) ∧
    specSignRule 0x8000 = 32768 - 0xffff ∧
    specSignRule 0x8000 = -32767 := by
  refine ⟨get_battery_state_of_len data hlen, ?_, by decide, by decide⟩
  rw [decodeBatteryState_milliamps]
  exact battery_milliamps_eq_spec _ _ (getD_lt_256 hb (by omega)) (getD_lt_256 hb (by omega))

/-- Witness for C1 at a concrete block carrying raw current 0x8000 at offset 2. -/
theorem battery_current_sign_rule_witness :
    get_battery_state [0, 0, 0, 128, 0, 0, 0, 0, 0, 0, 0, 0] =
      .ok (decodeBatteryState [0, 0, 0, 128, 0, 0, 0, 0, 0, 0, 0, 0]) ∧
    (decodeBatteryState [0, 0, 0, 128, 0, 0, 0, 0, 0, 0, 0, 0]).milliamps =
      specSignRule (List.getD [0, 0, 0, 128, 0, 0, 0, 0, 0, 0, 0, 0] 2 0 +
        256 * List.getD [0, 0, 0, 128, 0, 0, 0, 0, 0, 0, 0, 0] 3 0) ∧
    specSignRule 0x8000 = 32768 - 0xffff ∧
    specSignRule 0x8000 = -32767 :=
  battery_current_sign_rule [0, 0, 0, 128, 0, 0, 0, 0, 0, 0, 0, 0] (by decide) (by decide)

/-- C5: conditional tail of the battery decode: when the decoded current is
negative, the remaining-runtime minutes come from offset 8 and time-to-full
is 0; when the current is non-negative, time-to-full comes from offset 10 and
remaining-runtime is 0. -/
theorem battery_conditional_tail (data : List Nat) (hlen : data.length = 12)
    (hb : ∀ b ∈ data, b < 256) :
    get_battery_state data = .ok (decodeBatteryState data) ∧
    ((decodeBatteryState data).milliamps < 0 →
      (decodeBatteryState data).remaining_runtime_minutes =
        data.getD 8 0 + 256 * data.getD 9 0 ∧
      (decodeBatteryState data).time_to_full_minutes = 0) ∧
    (0 ≤ (decodeBatteryState data).milliamps →
      (decodeBatteryState data).time_to_full_minutes =
        data.getD 10 0 + 256 * data.getD 11 0 ∧
      (decodeBatteryState data).remaining_runtime_minutes = 0) := by
  refine ⟨get_battery_state_of_len data hlen, ?_, ?_⟩
  · intro hneg
    rw [decodeBatteryState_milliamps] at hneg
    constructor
    · rw [decodeBatteryState_runtime, if_pos hneg,
        le16_eq_add _ _ (getD_lt_256 hb (by omega))]
    · rw [decodeBatteryState_time_to_full, if_pos hneg]
  · intro hpos
    rw [decodeBatteryState_milliamps] at hpos
    have hnneg : ¬ battery_milliamps (data.getD 2 0) (data.getD 3 0) < 0 := by omega
    constructor
    · rw [decodeBatteryState_time_to_full, if_neg hnneg,
        le16_eq_add _ _ (getD_lt_256 hb (by omega))]
    · rw [decodeBatteryState_runtime, if_neg hnneg]

/-- Witness for C5 at a discharging block (raw current 0xFFFE decodes to
-1 mA) with 7 minutes of runtime encoded at offset 8. -/
theorem battery_conditional_tail_witness :
    (decodeBatteryState [0, 0, 254, 255, 0, 0, 0, 0, 7, 0, 0, 0]).remaining_runtime_minutes = 7 ∧
    (decodeBatteryState [0, 0, 254, 255, 0, 0, 0, 0, 7, 0, 0, 0]).time_to_full_minutes = 0 :=
  (battery_conditional_tail [0, 0, 254, 255, 0, 0, 0, 0, 7, 0, 0, 0]
    (by decide) (by decide)).2.1 (by decide)

/-- C9: the decoded current always lies in [-32767, 32767] (the value -32768
is never produced), and the current decode is not injective: raw 0xFFFF and
raw 0x0000 both decode to 0 mA. -/
theorem battery_current_range (data : List Nat) (hlen : data.length = 12)
    (hb : ∀ b ∈ data, b < 256) :
    (get_battery_state data = .ok (decodeBatteryState data) ∧
      -32767 ≤ (decodeBatteryState data).milliamps ∧
      (decodeBatteryState data).milliamps ≤ 32767) ∧
    (decodeBatteryState [0, 0, 255, 255, 0, 0, 0, 0, 0, 0, 0, 0]).milliamps = 0 ∧
    (decodeBatteryState [0, 0, 0, 0, 0, 0, 0, 0, 0, 0, 0, 0]).milliamps = 0 := by
  refine ⟨⟨get_battery_state_of_len data hlen, ?_⟩, by decide, by decide⟩
  have h2 := getD_lt_256 hb (show 2 < data.length by omega)
  have h3 := getD_lt_256 hb (show 3 < data.length by omega)
  rw [decodeBatteryState_milliamps, battery_milliamps_eq_spec _ _ h2 h3]
  unfold specSignRule
  split <;> push_cast <;> omega

/-- Witness for C9 at the block carrying raw current 0x8000 (the most negative
decodable value). -/
theorem battery_current_range_witness :
    -32767 ≤ (decodeBatteryState [0, 0, 0, 128, 0, 0, 0, 0, 0, 0, 0, 0]).milliamps ∧
    (decodeBatteryState [0, 0, 0, 128, 0, 0, 0, 0, 0, 0, 0, 0]).milliamps ≤ 32767 :=
  (battery_current_range [0, 0, 0, 128, 0, 0, 0, 0, 0, 0, 0, 0] (by decide) (by decide)).1.2

/-- C2: the claim asks `is_battery_low` to compare the exact integer sum of
the four cell voltages against 4 × 3400 = 13600 mV, but the code sums the
four `u16` values in 16-bit arithmetic before casting to `u32`: on the block
encoding cells (32768, 32768, 0, 0) mV the sum wraps to 0 and the code
reports the battery as low even though the exact sum 65536 exceeds the
cutoff (contradicting the function's own doc comment). -/
theorem is_battery_low_u16_overflow :
    is_battery_low [0, 128, 0, 128, 0, 0, 0, 0] = .ok true ∧
    decodeCellVoltage [0, 128, 0, 128, 0, 0, 0, 0] =
      { cell_1_millivolts := 32768, cell_2_millivolts := 32768,
        cell_3_millivolts := 0, cell_4_millivolts := 0 } ∧
    ¬(32768 + 32768 + 0 + 0 ≤ 4 * DEFAULT_CELL_LOW_VOLTAGE_THRESHOLD) := by
  decide

/-- C3: for every status byte whose low three bits are not 0b111 the decode
succeeds with the four sub-fields given by the bit table (bits 0-2 the
activity code, bit 5 USB-C input, bit 6 power delivery, bit 7 charging
state); when the low three bits are 0b111 the decode fails with
`InvalidChargerActivity` carrying the raw activity value. -/
theorem charging_status_decode :
    ∀ byte < 256,
      (byte % 8 ≠ 7 →
        get_power_state [byte] = .ok
          { charging_state := if byte.testBit 7 then .Charging else .NotCharging
            charger_activity := specChargerActivityTable (byte % 8)
            usbc_input_state := if byte.testBit 5 then .Powered else .NoPower
            usbc_power_delivery := if byte.testBit 6 then .FastCharging else .StandardCharging }) ∧
      (byte % 8 = 7 →
        get_power_state [byte] = .error (.InvalidChargerActivity (byte % 8))) := by
  decide

/-- Witness for C3 at byte 0xA5 (activity Full, powered, standard charging,
charging) and at byte 0x07 (undefined activity code). -/
theorem charging_status_decode_witness :
    get_power_state [0xa5] = .ok
      { charging_state := .Charging
        charger_activity := .Full
        usbc_input_state := .Powered
        usbc_power_delivery := .StandardCharging } ∧
    get_power_state [0x07] = .error (.InvalidChargerActivity 7) :=
  ⟨(charging_status_decode 0xa5 (by decide)).1 (by decide),
   (charging_status_decode 0x07 (by decide)).2 (by decide)⟩

/-- C10: the charging-status decode depends only on bits 0-2, 5, 6 and 7 of
the status byte: two bytes that agree on mask 0xE7 (i.e. differ only in bits
3 and/or 4) decode to identical results, success or failure. -/
theorem charging_status_ignores_bits_3_4 (b b' : Nat)
    (h : b &&& 0xe7 = b' &&& 0xe7) :
    get_power_state [b] = get_power_state [b'] := by
  have h7 : b &&& 0b111 = b' &&& 0b111 := and_mask_congr b b' 0xe7 0b111 h (by decide)
  have h5 : b &&& (1 <<< 5) = b' &&& (1 <<< 5) := and_mask_congr b b' 0xe7 (1 <<< 5) h (by decide)
  have h6 : b &&& (1 <<< 6) = b' &&& (1 <<< 6) := and_mask_congr b b' 0xe7 (1 <<< 6) h (by decide)
  have h8 : b &&& (1 <<< 7) = b' &&& (1 <<< 7) := and_mask_congr b b' 0xe7 (1 <<< 7) h (by decide)
  show decodePowerState b = decodePowerState b'
  unfold decodePowerState
  rw [h7, h5, h6, h8]

/-- Witness for C10: bytes 0xA5 and 0xBD differ exactly in bits 3 and 4. -/
theorem charging_status_ignores_bits_3_4_witness :
    get_power_state [0xa5] = get_power_state [0xbd] :=
  charging_status_ignores_bits_3_4 0xa5 0xbd (by decide)

/-- C4: when the transport returns a block whose length differs from the
register's expected length, the read fails with `InvalidDataLen` carrying
exactly (register address, expected length, actual length), and every facade
operation propagates exactly that error: no codec output is produced and the
block is never truncated or padded. -/
theorem length_mismatch_rejected (data : List Nat) :
    (∀ register length : Nat, data.length ≠ length →
      read_block register length data =
        .error (.InvalidDataLen register length data.length)) ∧
    (data.length ≠ 8 → get_cell_voltage data =
      .error (.InvalidDataLen CELL_VOLTAGE_REG.id 8 data.length)) ∧
    (data.length ≠ 6 → get_usbc_vbus data =
      .error (.InvalidDataLen USBC_VBUS_REG.id 6 data.length)) ∧
    (data.length ≠ 12 → get_battery_state data =
      .error (.InvalidDataLen BATTERY_REG.id 12 data.length)) ∧
    (data.length ≠ 1 → get_power_state data =
      .error (.InvalidDataLen CHARGING_REG.id 1 data.length)) ∧
    (data.length ≠ 1 → get_communication_state data =
      .error (.InvalidDataLen COMMUNICATION_REG.id 1 data.length)) ∧
    (data.length ≠ 1 → is_power_off_pending data =
      .error (.InvalidDataLen POWEROFF_REG.id 1 data.length)) := by
  refine ⟨fun register length h => read_block_mismatch register length data h,
    ?_, ?_, ?_, ?_, ?_, ?_⟩
  · intro h
    unfold get_cell_voltage
    rw [read_block_mismatch CELL_VOLTAGE_REG.id CELL_VOLTAGE_REG.length data h]
    rfl
  · intro h
    unfold get_usbc_vbus
    rw [read_block_mismatch USBC_VBUS_REG.id USBC_VBUS_REG.length data h]
    rfl
  · intro h
    unfold get_battery_state
    rw [read_block_mismatch BATTERY_REG.id BATTERY_REG.length data h]
    rfl
  · intro h
    unfold get_power_state
    rw [read_block_mismatch CHARGING_REG.id CHARGING_REG.length data h]
    rfl
  · intro h
    unfold get_communication_state
    rw [read_block_mismatch COMMUNICATION_REG.id COMMUNICATION_REG.length data h]
    rfl
  · intro h
    unfold is_power_off_pending
    rw [read_block_mismatch POWEROFF_REG.id POWEROFF_REG.length data h]
    rfl

/-- Witness for C4 at concrete short blocks. -/
theorem length_mismatch_rejected_witness :
    read_block 0x30 8 [1, 2, 3] = .error (.InvalidDataLen 0x30 8 3) ∧
    get_cell_voltage [] = .error (.InvalidDataLen CELL_VOLTAGE_REG.id 8 0) ∧
    get_battery_state [] = .error (.InvalidDataLen BATTERY_REG.id 12 0) :=
  ⟨(length_mismatch_rejected [1, 2, 3]).1 0x30 8 (by decide),
   (length_mismatch_rejected []).2.1 (by decide),
   (length_mismatch_rejected []).2.2.2.1 (by decide)⟩

/-- C6: `force_power_off` writes exactly the byte 0x55 to the power-off
register 0x01, and `is_power_off_pending` on a subsequently read byte returns
true iff that byte equals 0x55, false for any other byte. -/
theorem power_off_sentinel (b : Nat) (hb : b < 256) :
    force_power_off_write = (0x01, 0x55) ∧
    (is_power_off_pending [b] = .ok true ↔ b = 0x55) ∧
    (b ≠ 0x55 → is_power_off_pending [b] = .ok false) := by
  have key : is_power_off_pending [b] = .ok (decide (b = POWEROFF_VALUE)) := rfl
  refine ⟨rfl, ?_, ?_⟩
  · rw [key]
    constructor
    · intro h
      exact of_decide_eq_true (Except.ok.inj h)
    · intro h
      subst h
      rfl
  · intro h
    rw [key]
    exact congrArg Except.ok (decide_eq_false h)

/-- Witness for C6: the sentinel byte reads as pending, 0x00 does not. -/
theorem power_off_sentinel_witness :
    force_power_off_write = (0x01, 0x55) ∧
    is_power_off_pending [0x55] = .ok true ∧
    is_power_off_pending [0x00] = .ok false :=
  ⟨(power_off_sentinel 0 (by decide)).1,
   (power_off_sentinel 0x55 (by decide)).2.1.mpr rfl,
   (power_off_sentinel 0 (by decide)).2.2 (by decide)⟩

/-- C7: encoding any four 16-bit cell voltages little-endian at byte offsets
0, 2, 4, 6 and decoding the block returns the identical four values assigned
to cells 1 through 4 in the identical order. -/
theorem cell_voltage_round_trip (v1 v2 v3 v4 : Nat)
    (_h1 : v1 < 65536) (_h2 : v2 < 65536) (_h3 : v3 < 65536) (_h4 : v4 < 65536) :
    get_cell_voltage (encodeCellBlock v1 v2 v3 v4) = .ok
      { cell_1_millivolts := v1, cell_2_millivolts := v2,
        cell_3_millivolts := v3, cell_4_millivolts := v4 } := by
  have e : ∀ v : Nat, le16 (v % 256) (v / 256) = v := by
    intro v
    rw [le16_eq_add _ _ (Nat.mod_lt v (by norm_num))]
    exact Nat.mod_add_div v 256
  have hdec : decodeCellVoltage (encodeCellBlock v1 v2 v3 v4) =
      { cell_1_millivolts := le16 (v1 % 256) (v1 / 256)
        cell_2_millivolts := le16 (v2 % 256) (v2 / 256)
        cell_3_millivolts := le16 (v3 % 256) (v3 / 256)
        cell_4_millivolts := le16 (v4 % 256) (v4 / 256) } := rfl
  unfold get_cell_voltage
  rw [read_block_ok CELL_VOLTAGE_REG.id CELL_VOLTAGE_REG.length
    (encodeCellBlock v1 v2 v3 v4) rfl]
  show Except.ok (decodeCellVoltage (encodeCellBlock v1 v2 v3 v4)) = _
  rw [hdec]
  simp only [e]

/-- Witness for C7 at the spec's example voltages (1000, 2000, 3000, 4000). -/
theorem cell_voltage_round_trip_witness :
    get_cell_voltage (encodeCellBlock 1000 2000 3000 4000) = .ok
      { cell_1_millivolts := 1000, cell_2_millivolts := 2000,
        cell_3_millivolts := 3000, cell_4_millivolts := 4000 } :=
  cell_voltage_round_trip 1000 2000 3000 4000 (by decide) (by decide) (by decide) (by decide)

/-- C8: for every status byte, bit 0 gives the IP2368 charge-management link
state and bit 1 the BQ4050 gas-gauge link state, bit value 0 mapping to the
error state and 1 to the normal state; the decode always succeeds. -/
theorem communication_status_decode :
    ∀ byte < 256,
      get_communication_state [byte] = .ok
        { bq4050 := if byte.testBit 1 then .Normal else .Error
          ip2368 := if byte.testBit 0 then .Normal else .Error } := by
  decide

/-- Witness for C8 at byte 0b10: gas gauge normal, charge management in
error state. -/
theorem communication_status_decode_witness :
    get_communication_state [2] = .ok { bq4050 := .Normal, ip2368 := .Error } :=
  communication_status_decode 2 (by decide)
